import Mathlib

/-
Verification of src/context7.py: the Context7 documentation adapter.

The module exposes three functions around one outbound HTTP GET:

  - a request helper that maps the HTTP layer's outcome (a response, or a
    raised transport exception) to a Context7Result envelope;
  - resolve_library_id, which issues a search request and reshapes the
    JSON body;
  - get_library_docs, which normalizes the library id, builds the query
    parameters and wraps the returned documentation body.

The embedding models the HTTP layer's outcome explicitly (HttpOutcome): the
request helper and the two tools become functions of that outcome. Python
strings are Lean strings, with character-level operations standing for
Python slicing; dynamically typed JSON values are the Json inductive, with
null standing for Python None as well. A Python function that can raise an
uncaught exception is embedded with an Except return type whose error case
carries the exception description; a function that cannot raise returns its
value directly.
-/

namespace Context7

/-- A dynamically typed value, as produced by Python JSON decoding. `null`
also stands for the Python value None. -/
inductive Json where
  | null : Json
  | str (s : String) : Json
  | num (n : Int) : Json
  | bool (b : Bool) : Json
  | arr (xs : List Json) : Json
  | obj (fields : List (String × Json)) : Json
deriving Repr

/-- Python truthiness of a dynamic value, as used by the source conditions
`if result.success and result.data`, `if not results`, and
`if not result.data`. -/
def truthy : Json → Bool
  | .null => false
  | .str s => s ≠ ""
  | .num n => n ≠ 0
  | .bool b => b
  | .arr xs => ¬ xs.isEmpty
  | .obj fields => ¬ fields.isEmpty

/-- The result envelope, from the pydantic model Context7Result in
src/context7.py lines 33-38: success flag, data defaulting to None, error
defaulting to None. -/
structure Context7Result where
  success : Bool
  data : Json := Json.null
  error : Option String := none
deriving Repr

/-- A query-parameter value: the params dicts in the source hold strings
and ints. -/
inductive ParamValue where
  | str (s : String) : ParamValue
  | int (n : Int) : ParamValue
deriving Repr, DecidableEq

/-- The observable outbound request a tool hands to the request helper:
the API path passed to _request and the query parameters in dict insertion
order. -/
structure HttpRequest where
  path : String
  params : List (String × ParamValue)
deriving Repr, DecidableEq

/-- An HTTP response as the httpx client presents it to _request: status
code, content-type header value (empty string when the header is absent,
the dict .get default in line 82), the outcome of calling .json() on the
body (error when decoding raises, with the raised exception's description),
and the body text. -/
structure HttpResponse where
  status : Nat
  contentType : String
  jsonBody : Except String Json
  text : String

/-- What the underlying HTTP layer does for one outbound request: either a
transport-level exception whose description is msg (DNS failure, connection
refused, timeout, ...), or a response. -/
inductive HttpOutcome where
  | exn (msg : String) : HttpOutcome
  | resp (r : HttpResponse) : HttpOutcome

/-- Python substring containment `pat in s`, used by the content-type check
in line 83, at the character level. -/
def strContains (s pat : String) : Bool := decide (pat.toList <:+: s.toList)

/-- Modelled from the behaviour of httpx (external to this repository):
response.raise_for_status() in line 79 raises HTTPStatusError exactly when
the status code is not 2xx; the message of that exception is modelled
opaquely as a function of the status code, since the source never inspects
it beyond str(e). -/
def raiseForStatusMessage (status : Nat) : String :=
  "HTTP status error for status code " ++ toString status

/-- Whether a status code counts as success for raise_for_status. -/
def is2xx (status : Nat) : Bool := 200 ≤ status && status < 300

/-- The error string built in line 73. -/
def rateLimitedError : String := "Rate limited. Please try again later."

/-- The error string built in line 75. -/
def unauthorizedError : String := "Unauthorized. Please check your API key."

/-- The error string built in line 77. -/
def libraryNotFoundError : String := "Library not found."

/-- The request helper _request (src/context7.py lines 55-88) as a function
of the HTTP layer's outcome. Status checks 429, 401, 404 in the source's
order; then raise_for_status, whose exception the enclosing try converts to
an error result; then the content-type dispatch between response.json()
(whose own decoding exception is likewise converted by the enclosing try)
and response.text. A transport exception from the client itself is caught
by the same handler, line 87-88. -/
def _request (outcome : HttpOutcome) : Context7Result :=
  match outcome with
  | .exn msg => { success := false, data := Json.null, error := some msg }
  | .resp r =>
    if r.status = 429 then
      { success := false, data := Json.null, error := some rateLimitedError }
    else if r.status = 401 then
      { success := false, data := Json.null, error := some unauthorizedError }
    else if r.status = 404 then
      { success := false, data := Json.null, error := some libraryNotFoundError }
    else if ¬ is2xx r.status then
      { success := false, data := Json.null, error := some (raiseForStatusMessage r.status) }
    else if strContains r.contentType "application/json" then
      match r.jsonBody with
      | .ok v => { success := true, data := v, error := none }
      | .error e => { success := false, data := Json.null, error := some e }
    else
      { success := true, data := Json.str r.text, error := none }

/-- Python dict/str attribute access value.get(key, default), as applied to
the dynamically typed result.data and lib values in resolve_library_id
(lines 116 and 127-132): on a dict it returns the stored value or the
default; on every other runtime type the attribute lookup raises
AttributeError, which the function does not catch. -/
def pyGet (v : Json) (key : String) (default : Json) : Except String Json :=
  match v with
  | .obj fields => .ok ((fields.lookup key).getD default)
  | .str _ => .error "AttributeError: str object has no attribute get"
  | .arr _ => .error "AttributeError: list object has no attribute get"
  | .num _ => .error "AttributeError: int object has no attribute get"
  | .bool _ => .error "AttributeError: bool object has no attribute get"
  | .null => .error "AttributeError: NoneType object has no attribute get"

/-- Python slicing results[:10] in line 125, on a dynamically typed value:
defined on lists and on strings (a string slices to its first ten
characters, each iterated as a one-character string); every other runtime
type raises TypeError. -/
def pyTakeTen (v : Json) : Except String (List Json) :=
  match v with
  | .arr xs => .ok (xs.take 10)
  | .str s => .ok ((s.toList.take 10).map fun c => Json.str (String.mk [c]))
  | _ => .error "TypeError: value does not support slicing"

/-- One iteration of the formatting loop in lines 126-133: build the
formatted entry for one search result, each field read with .get and a
default. Raises (as the source does) when lib is not a dict. -/
def formatLib (lib : Json) : Except String Json := do
  let id ← pyGet lib "id" (Json.str "")
  let name ← pyGet lib "name" (Json.str "")
  let description ← pyGet lib "description" (Json.str "")
  let codeSnippets ← pyGet lib "codeSnippets" (Json.num 0)
  let trustScore ← pyGet lib "trustScore" (Json.num 0)
  let versions ← pyGet lib "versions" (Json.arr [])
  return Json.obj
    [("library_id", id), ("name", name), ("description", description),
     ("code_snippets", codeSnippets), ("trust_score", trustScore),
     ("versions", versions)]

/-- The formatting loop of lines 124-133: format each search result in
order, stopping with the raised exception at the first element whose
attribute access fails, exactly as the Python for-loop does. -/
def formatAll : List Json → Except String (List Json)
  | [] => .ok []
  | lib :: rest => do
    let entry ← formatLib lib
    let others ← formatAll rest
    return entry :: others

/-- The message of line 120. -/
def noLibrariesMessage : String := "No libraries found matching your query."

/-- The message of line 136, for n formatted entries. -/
def foundMessage (n : Nat) : String :=
  "Found " ++ toString n ++ " matching libraries."

/-- The outbound request issued by resolve_library_id in line 113. -/
def resolve_library_id_request (library_name : String) : HttpRequest :=
  { path := "/v1/search", params := [("query", ParamValue.str library_name)] }

/-- The tool resolve_library_id (src/context7.py lines 102-140) as a
function of the HTTP layer's outcome for its one request. The Except layer
records the uncaught exceptions its dynamic attribute accesses can raise. -/
def resolve_library_id (outcome : HttpOutcome) : Except String Context7Result := do
  let result := _request outcome
  if result.success && truthy result.data then
    let results ← pyGet result.data "results" (Json.arr [])
    if !truthy results then
      return { success := true,
               data := Json.obj
                 [("message", Json.str noLibrariesMessage), ("results", Json.arr [])],
               error := none }
    else
      let libs ← pyTakeTen results
      let formatted ← formatAll libs
      return { result with
               data := Json.obj
                 [("message", Json.str (foundMessage formatted.length)),
                  ("results", Json.arr formatted)] }
  else
    return result

/-- The library-id cleanup of lines 166-167: drop the first character when
the id starts with a slash. -/
def cleanLibraryId (library_id : String) : String :=
  if decide (['/'] <+: library_id.toList) then String.mk (library_id.toList.drop 1)
  else library_id

/-- The outbound request built by get_library_docs in lines 166-176: path
/v1/ followed by the cleaned id; params tokens (raised to the 10000 floor),
type txt, and topic exactly when topic is truthy. -/
def get_library_docs_request (library_id : String) (topic : Option String)
    (tokens : Int) : HttpRequest :=
  { path := "/v1/" ++ cleanLibraryId library_id,
    params :=
      [("tokens", ParamValue.int (max tokens 10000)), ("type", ParamValue.str "txt")] ++
      match topic with
      | some t => if t = "" then [] else [("topic", ParamValue.str t)]
      | none => [] }

/-- The membership test of line 179: result.data is one of the two no-content
sentinel strings. A Python == between a string literal and a non-string
value is False, so only str values can match. -/
def isNoContentSentinel : Json → Bool
  | .str s => s = "No content available" || s = "No context data available"
  | _ => false

/-- The error string of lines 182-185 (two adjacent literals joined). -/
def docsNotFoundError : String :=
  "Documentation not found. This might happen because you used an invalid library ID. Use 'resolve_library_id' to get a valid ID."

/-- The Python value stored under the topic key of the payload in line 191:
None when no topic was passed, the string itself otherwise. -/
def topicJson : Option String → Json
  | none => Json.null
  | some t => Json.str t

/-- The tool get_library_docs (src/context7.py lines 150-195) as a function
of the HTTP layer's outcome for its one request: clean the id, run the
request, and post-process the result as lines 178-195 do. No statement in
the function can raise, so it returns a Context7Result directly. -/
def get_library_docs (library_id : String) (topic : Option String)
    (tokens : Int) (outcome : HttpOutcome) : Context7Result :=
  let lid := cleanLibraryId library_id
  let result := _request outcome
  if result.success then
    if !truthy result.data || isNoContentSentinel result.data then
      { success := false, data := Json.null, error := some docsNotFoundError }
    else
      { result with
        data := Json.obj
          [("library_id", Json.str ("/" ++ lid)), ("topic", topicJson topic),
           ("documentation", result.data)] }
  else
    result

/-- The envelope invariant of the result type, as the data model section of
the specification states it: a failure carries an error string, a success
carries none (its data may still be anything, None included). -/
def envelopeOk (r : Context7Result) : Prop :=
  (r.success = false → ∃ msg, r.error = some msg) ∧
  (r.success = true → r.error = none)

/-- The library descriptor mapping as the specification states it: the
source fields id, name, description, codeSnippets, trustScore and versions
are read with defaults empty string, empty string, empty string, 0, 0 and
empty list, and renamed to the descriptor field names. Stated from the
specification's words, to be compared with the loop of lines 126-133. -/
def libraryDescriptorOf (fields : List (String × Json)) : Json :=
  Json.obj
    [("library_id", (fields.lookup "id").getD (Json.str "")),
     ("name", (fields.lookup "name").getD (Json.str "")),
     ("description", (fields.lookup "description").getD (Json.str "")),
     ("code_snippets", (fields.lookup "codeSnippets").getD (Json.num 0)),
     ("trust_score", (fields.lookup "trustScore").getD (Json.num 0)),
     ("versions", (fields.lookup "versions").getD (Json.arr []))]

/-- A 2xx response carrying a plain-text body, for concrete instances: the
content-type is not JSON, so _request returns the text as data and the
unused .json() outcome is a decode error. -/
def plainTextResponse (body : String) : HttpOutcome :=
  HttpOutcome.resp
    { status := 200, contentType := "text/plain",
      jsonBody := Except.error "JSONDecodeError: Expecting value", text := body }

/-- A 2xx response carrying a JSON body, for concrete instances. -/
def jsonResponse (v : Json) : HttpOutcome :=
  HttpOutcome.resp
    { status := 200, contentType := "application/json",
      jsonBody := Except.ok v, text := "" }

/-- Fifteen well-formed search results, for concrete instances. -/
def fifteenResults : List (List (String × Json)) :=
  List.replicate 15 [("id", Json.str "/vercel/next.js"), ("name", Json.str "Next.js")]

/-- A one-element prefix of a character list is exactly a constraint on its
first element. -/
theorem singleton_prefix_iff_head (c : Char) (l : List Char) :
    [c] <+: l ↔ l.head? = some c := by
  cases l with
  | nil => simp
  | cons a as => simp [List.cons_prefix_cons, eq_comm]

/-- The request helper satisfies the envelope invariant on every outcome. -/
theorem request_envelopeOk (outcome : HttpOutcome) : envelopeOk (_request outcome) := by
  cases outcome with
  | exn msg => exact ⟨fun _ => ⟨msg, rfl⟩, fun h => by cases h⟩
  | resp r =>
    unfold envelopeOk _request
    dsimp only
    repeat' split
    all_goals constructor <;> intro h <;> simp_all

/-- On a success of the request helper the error field is None. -/
theorem request_success_error_none (outcome : HttpOutcome)
    (h : (_request outcome).success = true) : (_request outcome).error = none :=
  (request_envelopeOk outcome).2 h

/-- The sentinel membership test of line 179 holds exactly on the two
sentinel strings. -/
theorem isNoContentSentinel_iff (d : Json) :
    isNoContentSentinel d = true ↔
      d = Json.str "No content available" ∨ d = Json.str "No context data available" := by
  cases d <;> simp [isNoContentSentinel]

/-- Formatting one well-formed (dict) search result is the specification's
library descriptor mapping. -/
theorem formatLib_obj (fields : List (String × Json)) :
    formatLib (Json.obj fields) = Except.ok (libraryDescriptorOf fields) := rfl

/-- The formatting loop on a list of well-formed (dict) search results
succeeds and is the specification's mapping applied elementwise in order. -/
theorem formatAll_objs (l : List (List (String × Json))) :
    formatAll (l.map Json.obj) = Except.ok (l.map libraryDescriptorOf) := by
  induction l with
  | nil => rfl
  | cons x xs ih =>
    simp only [List.map_cons, formatAll, formatLib_obj, ih]
    rfl

/-- Claim C1 (code-bug record): contrary to the claim, a tool invocation
can propagate an exception. Evaluated at a search request whose underlying
request helper succeeds with a 2xx plain-text (non-JSON) body, the
post-processing of resolve_library_id calls .get on the string body and
raises an uncaught AttributeError instead of returning a Context7Result. -/
theorem resolve_library_id_raises_on_string_body :
    resolve_library_id (plainTextResponse "hello") =
      Except.error "AttributeError: str object has no attribute get" := rfl

/-- Claim C7: every transport-level exception raised during the outbound
request is caught by _request, which returns a failure result whose error
is exactly the exception's description; the helper returns a plain value,
so the exception is never re-raised to its caller. -/
theorem request_transport_exception (msg : String) :
    _request (HttpOutcome.exn msg) =
      { success := false, data := Json.null, error := some msg } := rfl

/-- Witness for request_transport_exception at a connection-refused
message. -/
theorem request_transport_exception_witness :
    _request (HttpOutcome.exn "connection refused") =
      { success := false, data := Json.null, error := some "connection refused" } :=
  request_transport_exception "connection refused"

/-- Claim C4 (counterexample): on a concrete 429 response the error string
_request returns is the source's full sentence, so it is not the short
phrase "rate limited" the claim states. -/
theorem request_429_error_literal_counterexample :
    (_request (HttpOutcome.resp
      { status := 429, contentType := "text/html",
        jsonBody := Except.error "JSONDecodeError: Expecting value",
        text := "Too Many Requests" })).error ≠ some "rate limited" := by
  decide

/-- Claim C4 (amended): an HTTP 429 response yields the failure result
with error "Rate limited. Please try again later." regardless of content
type, body text or JSON outcome; 401 yields "Unauthorized. Please check
your API key."; 404 yields "Library not found."; each of these specific
checks takes precedence over the generic non-2xx handling. -/
theorem request_status_error_strings (r : HttpResponse) :
    (r.status = 429 → _request (HttpOutcome.resp r) =
      { success := false, data := Json.null,
        error := some "Rate limited. Please try again later." }) ∧
    (r.status = 401 → _request (HttpOutcome.resp r) =
      { success := false, data := Json.null,
        error := some "Unauthorized. Please check your API key." }) ∧
    (r.status = 404 → _request (HttpOutcome.resp r) =
      { success := false, data := Json.null,
        error := some "Library not found." }) := by
  refine ⟨fun h => ?_, fun h => ?_, fun h => ?_⟩ <;>
    simp [_request, h, rateLimitedError, unauthorizedError, libraryNotFoundError]

/-- Witness for request_status_error_strings: a 429 response with a
non-empty body maps to the rate-limited failure. -/
theorem request_status_error_strings_witness :
    ({ status := 429, contentType := "text/html",
       jsonBody := Except.ok (Json.str "ignored"),
       text := "Too Many Requests" } : HttpResponse).status = 429 ∧
    _request (HttpOutcome.resp
      { status := 429, contentType := "text/html",
        jsonBody := Except.ok (Json.str "ignored"), text := "Too Many Requests" }) =
      { success := false, data := Json.null,
        error := some "Rate limited. Please try again later." } :=
  ⟨rfl, (request_status_error_strings _).1 rfl⟩

/-- Claim C2: for every call of get_library_docs, a leading slash on the
library id is removed before building the request path /v1/<library_id>;
the outbound tokens query parameter equals max(tokens, 10000), so any
caller value below 10000 is raised to 10000; the parameter type=txt is
always present; and the topic parameter is absent exactly when no topic or
an empty topic was provided, and otherwise carries the provided topic. -/
theorem get_library_docs_request_params (library_id : String)
    (topic : Option String) (tokens : Int) :
    (library_id.toList.head? = some '/' →
      (get_library_docs_request library_id topic tokens).path =
        "/v1/" ++ String.mk (library_id.toList.drop 1)) ∧
    (library_id.toList.head? ≠ some '/' →
      (get_library_docs_request library_id topic tokens).path = "/v1/" ++ library_id) ∧
    (get_library_docs_request library_id topic tokens).params.lookup "tokens" =
      some (ParamValue.int (max tokens 10000)) ∧
    (tokens < 10000 →
      (get_library_docs_request library_id topic tokens).params.lookup "tokens" =
        some (ParamValue.int 10000)) ∧
    (get_library_docs_request library_id topic tokens).params.lookup "type" =
      some (ParamValue.str "txt") ∧
    ((get_library_docs_request library_id topic tokens).params.lookup "topic" = none ↔
      (topic = none ∨ topic = some "")) ∧
    (∀ t, topic = some t → t ≠ "" →
      (get_library_docs_request library_id topic tokens).params.lookup "topic" =
        some (ParamValue.str t)) := by
  refine ⟨?_, ?_, rfl, ?_, rfl, ?_, ?_⟩
  · intro h
    simp only [String.toList] at h
    simp [get_library_docs_request, cleanLibraryId, singleton_prefix_iff_head,
      String.toList, h, List.drop_one]
  · intro h
    simp only [String.toList] at h
    simp [get_library_docs_request, cleanLibraryId, singleton_prefix_iff_head,
      String.toList, h]
  · intro h
    have hm : max tokens 10000 = 10000 := max_eq_right h.le
    rw [show (get_library_docs_request library_id topic tokens).params.lookup "tokens" =
      some (ParamValue.int (max tokens 10000)) from rfl, hm]
  · cases topic with
    | none => exact ⟨fun _ => Or.inl rfl, fun _ => rfl⟩
    | some t =>
      by_cases ht : t = ""
      · subst ht
        exact ⟨fun _ => Or.inr rfl, fun _ => rfl⟩
      · constructor
        · intro h
          rw [show (get_library_docs_request library_id (some t) tokens).params =
              [("tokens", ParamValue.int (max tokens 10000)),
               ("type", ParamValue.str "txt"), ("topic", ParamValue.str t)] from by
            simp [get_library_docs_request, ht]] at h
          simp [List.lookup] at h
        · rintro (h | h)
          · cases h
          · exact absurd (Option.some.inj h) ht
  · intro t htopic hne
    subst htopic
    rw [show (get_library_docs_request library_id (some t) tokens).params =
        [("tokens", ParamValue.int (max tokens 10000)),
         ("type", ParamValue.str "txt"), ("topic", ParamValue.str t)] from by
      simp [get_library_docs_request, hne]]
    simp [List.lookup]

/-- Witness for get_library_docs_request_params at the specification's
scenario: id /facebook/react, topic hooks, tokens 5000. -/
theorem get_library_docs_request_params_witness :
    ("/facebook/react".toList.head? = some '/' →
      (get_library_docs_request "/facebook/react" (some "hooks") 5000).path =
        "/v1/" ++ String.mk ("/facebook/react".toList.drop 1)) ∧
    ("/facebook/react".toList.head? ≠ some '/' →
      (get_library_docs_request "/facebook/react" (some "hooks") 5000).path =
        "/v1/" ++ "/facebook/react") ∧
    (get_library_docs_request "/facebook/react" (some "hooks") 5000).params.lookup "tokens" =
      some (ParamValue.int (max 5000 10000)) ∧
    ((5000 : Int) < 10000 →
      (get_library_docs_request "/facebook/react" (some "hooks") 5000).params.lookup "tokens" =
        some (ParamValue.int 10000)) ∧
    (get_library_docs_request "/facebook/react" (some "hooks") 5000).params.lookup "type" =
      some (ParamValue.str "txt") ∧
    ((get_library_docs_request "/facebook/react" (some "hooks") 5000).params.lookup "topic" =
        none ↔
      ((some "hooks" : Option String) = none ∨ (some "hooks" : Option String) = some "")) ∧
    (∀ t, (some "hooks" : Option String) = some t → t ≠ "" →
      (get_library_docs_request "/facebook/react" (some "hooks") 5000).params.lookup "topic" =
        some (ParamValue.str t)) :=
  get_library_docs_request_params "/facebook/react" (some "hooks") 5000

/-- Claim C6: on a successful search response with non-empty data whose
results list is empty, resolve_library_id reports success with the
no-libraries message and an empty results list, not an error. -/
theorem resolve_library_id_no_results (outcome : HttpOutcome)
    (hs : (_request outcome).success = true)
    (ht : truthy (_request outcome).data = true)
    (hr : pyGet (_request outcome).data "results" (Json.arr []) =
      Except.ok (Json.arr [])) :
    resolve_library_id outcome = Except.ok
      { success := true,
        data := Json.obj
          [("message", Json.str "No libraries found matching your query."),
           ("results", Json.arr [])],
        error := none } := by
  unfold resolve_library_id
  dsimp only
  rw [hs, ht, hr]
  rfl

/-- Witness for resolve_library_id_no_results: a JSON search response whose
results field is an empty list. -/
theorem resolve_library_id_no_results_witness :
    (_request (jsonResponse (Json.obj [("results", Json.arr [])]))).success = true ∧
    truthy (_request (jsonResponse (Json.obj [("results", Json.arr [])]))).data = true ∧
    pyGet (_request (jsonResponse (Json.obj [("results", Json.arr [])]))).data "results"
      (Json.arr []) = Except.ok (Json.arr []) ∧
    resolve_library_id (jsonResponse (Json.obj [("results", Json.arr [])])) = Except.ok
      { success := true,
        data := Json.obj
          [("message", Json.str "No libraries found matching your query."),
           ("results", Json.arr [])],
        error := none } :=
  ⟨rfl, rfl, rfl,
    resolve_library_id_no_results (jsonResponse (Json.obj [("results", Json.arr [])]))
      rfl rfl rfl⟩

/-- Claim C10: when the search request succeeds but its data is falsy
(None, the empty string, or an empty dict), resolve_library_id returns the
helper's result unchanged, and in particular does not produce the
no-libraries envelope. -/
theorem resolve_library_id_falsy_data (outcome : HttpOutcome)
    (hs : (_request outcome).success = true)
    (hf : truthy (_request outcome).data = false) :
    resolve_library_id outcome = Except.ok (_request outcome) ∧
    ∀ r, resolve_library_id outcome = Except.ok r →
      r.data ≠ Json.obj
        [("message", Json.str "No libraries found matching your query."),
         ("results", Json.arr [])] := by
  have heq : resolve_library_id outcome = Except.ok (_request outcome) := by
    unfold resolve_library_id
    dsimp only
    rw [hf, Bool.and_false]
    rfl
  refine ⟨heq, fun r hok hbad => ?_⟩
  rw [heq] at hok
  cases hok
  rw [hbad] at hf
  cases hf

/-- Witness for resolve_library_id_falsy_data: a JSON search response whose
body is an empty dict. -/
theorem resolve_library_id_falsy_data_witness :
    (_request (jsonResponse (Json.obj []))).success = true ∧
    truthy (_request (jsonResponse (Json.obj []))).data = false ∧
    resolve_library_id (jsonResponse (Json.obj [])) =
      Except.ok (_request (jsonResponse (Json.obj []))) :=
  ⟨rfl, rfl, (resolve_library_id_falsy_data (jsonResponse (Json.obj [])) rfl rfl).1⟩

/-- Claim C5: on a successful search response whose results list is a
non-empty list of dicts, resolve_library_id succeeds with the found-N
message and exactly min(len, 10) formatted entries, in source order, each
entry being the specification's library descriptor mapping (fields id,
name, description, codeSnippets, trustScore, versions renamed with
defaults empty string, empty string, empty string, 0, 0, empty list) of
its source entry. -/
theorem resolve_library_id_formats_results (outcome : HttpOutcome)
    (fieldss : List (List (String × Json)))
    (hs : (_request outcome).success = true)
    (ht : truthy (_request outcome).data = true)
    (hr : pyGet (_request outcome).data "results" (Json.arr []) =
      Except.ok (Json.arr (fieldss.map Json.obj)))
    (hne : fieldss ≠ []) :
    resolve_library_id outcome = Except.ok
      { success := true,
        data := Json.obj
          [("message", Json.str (foundMessage (min fieldss.length 10))),
           ("results", Json.arr ((fieldss.take 10).map libraryDescriptorOf))],
        error := none } ∧
    ((fieldss.take 10).map libraryDescriptorOf).length = min fieldss.length 10 := by
  have her : (_request outcome).error = none := request_success_error_none outcome hs
  have hlen : ((fieldss.take 10).map libraryDescriptorOf).length = min fieldss.length 10 := by
    simp [List.length_take, Nat.min_comm]
  refine ⟨?_, hlen⟩
  unfold resolve_library_id
  dsimp only
  rw [hs, ht, hr]
  have h2 : formatAll ((fieldss.map Json.obj).take 10) =
      Except.ok ((fieldss.take 10).map libraryDescriptorOf) := by
    rw [← List.map_take, formatAll_objs]
  have htr : truthy (Json.arr (fieldss.map Json.obj)) = true := by
    simp [truthy, List.isEmpty_iff, hne]
  simp [Bind.bind, Except.bind, pyTakeTen, h2, htr, her, hs, hlen, pure, Except.pure]
  rw [Nat.min_comm]

/-- Witness for resolve_library_id_formats_results: a search response with
fifteen results yields exactly ten formatted entries. -/
theorem resolve_library_id_formats_results_witness :
    (_request (jsonResponse
      (Json.obj [("results", Json.arr (fifteenResults.map Json.obj))]))).success = true ∧
    truthy (_request (jsonResponse
      (Json.obj [("results", Json.arr (fifteenResults.map Json.obj))]))).data = true ∧
    pyGet (_request (jsonResponse
        (Json.obj [("results", Json.arr (fifteenResults.map Json.obj))]))).data "results"
      (Json.arr []) = Except.ok (Json.arr (fifteenResults.map Json.obj)) ∧
    fifteenResults ≠ [] ∧
    (resolve_library_id (jsonResponse
        (Json.obj [("results", Json.arr (fifteenResults.map Json.obj))])) = Except.ok
      { success := true,
        data := Json.obj
          [("message", Json.str (foundMessage (min fifteenResults.length 10))),
           ("results", Json.arr ((fifteenResults.take 10).map libraryDescriptorOf))],
        error := none } ∧
    ((fifteenResults.take 10).map libraryDescriptorOf).length =
      min fifteenResults.length 10) := by
  have hne : fifteenResults ≠ [] := by
    intro h
    have hlen : fifteenResults.length = 0 := by rw [h]; rfl
    rw [show fifteenResults.length = 15 from rfl] at hlen
    exact absurd hlen (by decide)
  exact ⟨rfl, rfl, rfl, hne,
    resolve_library_id_formats_results
      (jsonResponse (Json.obj [("results", Json.arr (fifteenResults.map Json.obj))]))
      fifteenResults rfl rfl rfl hne⟩

set_option maxRecDepth 16384 in
/-- Claim C3: when the underlying request of get_library_docs succeeds, an
empty (falsy) body or a body equal to one of the two no-content sentinel
strings is converted to a failure carrying the fixed guidance message,
which mentions resolve_library_id; any other body is wrapped, with
success, into the payload carrying the slash-prefixed id, the topic, and
the body as documentation. -/
theorem get_library_docs_postprocess (library_id : String) (topic : Option String)
    (tokens : Int) (outcome : HttpOutcome)
    (hs : (_request outcome).success = true) :
    ((truthy (_request outcome).data = false ∨
      (_request outcome).data = Json.str "No content available" ∨
      (_request outcome).data = Json.str "No context data available") →
      get_library_docs library_id topic tokens outcome =
        { success := false, data := Json.null, error := some docsNotFoundError }) ∧
    (truthy (_request outcome).data = true →
      (_request outcome).data ≠ Json.str "No content available" →
      (_request outcome).data ≠ Json.str "No context data available" →
      get_library_docs library_id topic tokens outcome =
        { success := true,
          data := Json.obj
            [("library_id", Json.str ("/" ++ cleanLibraryId library_id)),
             ("topic", topicJson topic),
             ("documentation", (_request outcome).data)],
          error := none }) ∧
    strContains docsNotFoundError "resolve_library_id" = true := by
  have her : (_request outcome).error = none := request_success_error_none outcome hs
  refine ⟨?_, ?_, by decide⟩
  · intro hcond
    have hsent : (!truthy (_request outcome).data ||
        isNoContentSentinel (_request outcome).data) = true := by
      rcases hcond with h | h | h
      · simp [h]
      · simp [h, isNoContentSentinel]
      · simp [h, isNoContentSentinel]
    unfold get_library_docs
    dsimp only
    rw [hs, hsent]
    rfl
  · intro ht h1 h2
    have hsent : isNoContentSentinel (_request outcome).data = false := by
      rcases hd : (_request outcome).data <;> simp [isNoContentSentinel]
      constructor
      · intro he
        exact h1 (by rw [hd, he])
      · intro he
        exact h2 (by rw [hd, he])
    unfold get_library_docs
    dsimp only
    rw [hs, ht, hsent]
    simp [her, hs]

/-- Witness for get_library_docs_postprocess: a successful request with
body DOCS for id /facebook/react and topic hooks wraps the body; the
guidance message names resolve_library_id. -/
theorem get_library_docs_postprocess_witness :
    (_request (plainTextResponse "DOCS")).success = true ∧
    ((truthy (_request (plainTextResponse "DOCS")).data = false ∨
      (_request (plainTextResponse "DOCS")).data = Json.str "No content available" ∨
      (_request (plainTextResponse "DOCS")).data = Json.str "No context data available") →
      get_library_docs "/facebook/react" (some "hooks") 5000 (plainTextResponse "DOCS") =
        { success := false, data := Json.null, error := some docsNotFoundError }) ∧
    (truthy (_request (plainTextResponse "DOCS")).data = true →
      (_request (plainTextResponse "DOCS")).data ≠ Json.str "No content available" →
      (_request (plainTextResponse "DOCS")).data ≠ Json.str "No context data available" →
      get_library_docs "/facebook/react" (some "hooks") 5000 (plainTextResponse "DOCS") =
        { success := true,
          data := Json.obj
            [("library_id", Json.str ("/" ++ cleanLibraryId "/facebook/react")),
             ("topic", topicJson (some "hooks")),
             ("documentation", (_request (plainTextResponse "DOCS")).data)],
          error := none }) ∧
    strContains docsNotFoundError "resolve_library_id" = true :=
  ⟨rfl, get_library_docs_postprocess "/facebook/react" (some "hooks") 5000
    (plainTextResponse "DOCS") rfl⟩

/-- Claim C9: the leading-slash normalization removes exactly one slash
and the success payload prepends exactly one: for an id not starting with
a slash, the calls on the bare and on the slash-prefixed id build the same
outbound request and, on the same HTTP outcome, the same result; every
successful result carries library_id equal to the bare id with one slash
prepended; and an id with two leading slashes keeps one of them in the
request path. -/
theorem leading_slash_normalization (s : String) (topic : Option String)
    (tokens : Int) (outcome : HttpOutcome)
    (h : s.toList.head? ≠ some '/') :
    get_library_docs_request ("/" ++ s) topic tokens =
      get_library_docs_request s topic tokens ∧
    get_library_docs ("/" ++ s) topic tokens outcome =
      get_library_docs s topic tokens outcome ∧
    ((get_library_docs s topic tokens outcome).success = true →
      ∃ doc, (get_library_docs s topic tokens outcome).data =
        Json.obj [("library_id", Json.str ("/" ++ s)), ("topic", topicJson topic),
                  ("documentation", doc)]) ∧
    (get_library_docs_request "//org/project" topic tokens).path = "/v1//org/project" := by
  have hlist : ("/" ++ s).toList = '/' :: s.toList := by
    rw [show ("/" ++ s).toList = ("/" : String).toList ++ s.toList from by
      simp [String.toList, String.data_append]]
    rfl
  have hclean1 : cleanLibraryId ("/" ++ s) = s := by
    unfold cleanLibraryId
    rw [hlist]
    have hd : decide (['/'] <+: '/' :: s.toList) = true :=
      decide_eq_true ((singleton_prefix_iff_head '/' ('/' :: s.toList)).mpr rfl)
    rw [hd]
    show String.mk (List.drop 1 ('/' :: s.toList)) = s
    rfl
  have hdec : decide (['/'] <+: s.toList) = false :=
    decide_eq_false fun hc => h ((singleton_prefix_iff_head _ _).mp hc)
  have hclean2 : cleanLibraryId s = s := by
    unfold cleanLibraryId
    rw [hdec]
    rfl
  refine ⟨?_, ?_, ?_, rfl⟩
  · unfold get_library_docs_request
    rw [hclean1, hclean2]
  · unfold get_library_docs
    rw [hclean1, hclean2]
  · intro hsucc
    unfold get_library_docs at hsucc ⊢
    rw [hclean2] at hsucc ⊢
    dsimp only at hsucc ⊢
    by_cases h1 : (_request outcome).success = true
    · rw [if_pos h1] at hsucc ⊢
      by_cases h2 : (!truthy (_request outcome).data ||
          isNoContentSentinel (_request outcome).data) = true
      · rw [if_pos h2] at hsucc
        cases hsucc
      · rw [if_neg h2] at hsucc ⊢
        exact ⟨(_request outcome).data, rfl⟩
    · rw [if_neg h1] at hsucc
      exact absurd hsucc h1

/-- Witness for leading_slash_normalization at the bare id org/project
with topic t and a successful plain-text outcome. -/
theorem leading_slash_normalization_witness :
    "org/project".toList.head? ≠ some '/' ∧
    (get_library_docs_request ("/" ++ "org/project") (some "t") 5000 =
      get_library_docs_request "org/project" (some "t") 5000 ∧
    get_library_docs ("/" ++ "org/project") (some "t") 5000 (plainTextResponse "DOCS") =
      get_library_docs "org/project" (some "t") 5000 (plainTextResponse "DOCS") ∧
    ((get_library_docs "org/project" (some "t") 5000 (plainTextResponse "DOCS")).success =
        true →
      ∃ doc,
        (get_library_docs "org/project" (some "t") 5000 (plainTextResponse "DOCS")).data =
          Json.obj [("library_id", Json.str ("/" ++ "org/project")),
                    ("topic", topicJson (some "t")), ("documentation", doc)]) ∧
    (get_library_docs_request "//org/project" (some "t") 5000).path = "/v1//org/project") :=
  ⟨by decide,
    leading_slash_normalization "org/project" (some "t") 5000 (plainTextResponse "DOCS")
      (by decide)⟩

/-- Claim C8: every Context7Result the three functions return satisfies
the envelope invariant: success false implies the error field carries a
string, success true implies the error field is None, while data may be
anything (None included) on success. resolve_library_id is quantified over
its normal, non-raising returns. -/
theorem result_envelope_invariant (library_id : String) (topic : Option String)
    (tokens : Int) (outcome : HttpOutcome) :
    envelopeOk (_request outcome) ∧
    (∀ r, resolve_library_id outcome = Except.ok r → envelopeOk r) ∧
    envelopeOk (get_library_docs library_id topic tokens outcome) := by
  have henv := request_envelopeOk outcome
  refine ⟨henv, ?_, ?_⟩
  · intro r hr
    unfold resolve_library_id at hr
    dsimp only at hr
    by_cases hc : ((_request outcome).success && truthy (_request outcome).data) = true
    · rw [if_pos hc] at hr
      cases hg : pyGet (_request outcome).data "results" (Json.arr []) with
      | error e => rw [hg] at hr; simp [Bind.bind, Except.bind] at hr
      | ok results =>
        rw [hg] at hr
        simp only [Bind.bind, Except.bind] at hr
        by_cases ht : (!truthy results) = true
        · rw [if_pos ht] at hr
          simp only [pure, Except.pure, Except.ok.injEq] at hr
          subst hr
          exact ⟨fun hf => Bool.noConfusion hf, fun _ => rfl⟩
        · rw [if_neg ht] at hr
          cases htake : pyTakeTen results with
          | error e => rw [htake] at hr; simp [Bind.bind, Except.bind] at hr
          | ok libs =>
            rw [htake] at hr
            simp only [Bind.bind, Except.bind] at hr
            cases hfmt : formatAll libs with
            | error e => rw [hfmt] at hr; simp [Bind.bind, Except.bind] at hr
            | ok formatted =>
              rw [hfmt] at hr
              simp only [Bind.bind, Except.bind, pure, Except.pure,
                Except.ok.injEq] at hr
              subst hr
              exact ⟨fun hf => henv.1 hf, fun ht2 => henv.2 ht2⟩
    · rw [if_neg hc] at hr
      simp only [pure, Except.pure, Except.ok.injEq] at hr
      subst hr
      exact henv
  · unfold get_library_docs
    dsimp only
    by_cases h1 : (_request outcome).success = true
    · rw [if_pos h1]
      by_cases h2 : (!truthy (_request outcome).data ||
          isNoContentSentinel (_request outcome).data) = true
      · rw [if_pos h2]
        exact ⟨fun _ => ⟨docsNotFoundError, rfl⟩, fun hf => Bool.noConfusion hf⟩
      · rw [if_neg h2]
        exact ⟨fun hf => henv.1 hf, fun ht => henv.2 ht⟩
    · rw [if_neg h1]
      exact henv

/-- Witness for result_envelope_invariant on a transport failure. -/
theorem result_envelope_invariant_witness :
    envelopeOk (_request (HttpOutcome.exn "boom")) ∧
    (∀ r, resolve_library_id (HttpOutcome.exn "boom") = Except.ok r → envelopeOk r) ∧
    envelopeOk (get_library_docs "x" none 0 (HttpOutcome.exn "boom")) :=
  result_envelope_invariant "x" none 0 (HttpOutcome.exn "boom")

end Context7
